/-
Verification of the Weatherscan data-aggregation core
(`webroot/js/api-adapters/openweathermap-adapter.js`: the
`OpenWeatherMapAdapter` and `RainViewerAdapter` classes).

The JavaScript is embedded shallowly:
  * JS numbers that only ever hold integers become `Int`/`Nat`; fractional
    quantities become `Rat`.
  * A value that may be `null`/`undefined` becomes an `Option`.
  * The truthiness of `x || d` and of ternary guards is embedded explicitly
    (`0`, `""`, `null`/`undefined` are falsy).
  * `async` network calls become explicit parameters carrying the outcome of
    the corresponding fetch (`Except ε α`); a rejected promise is `.error`.
  * The per-adapter `Map` cache becomes an association list threaded through
    `fetchWithCache` as explicit state.
-/
import Mathlib

namespace JS

/-- JS `Map.get` / object property read over an association list. -/
def mapGet {κ ν : Type} [DecidableEq κ] : List (κ × ν) → κ → Option ν
  | [], _ => none
  | (k', v) :: t, k => if k = k' then some v else mapGet t k

/-- JS `Map.set`: overwrite the entry if present, otherwise append. -/
def mapSet {κ ν : Type} [DecidableEq κ] : List (κ × ν) → κ → ν → List (κ × ν)
  | [], k, v => [(k, v)]
  | (k', v') :: t, k, v =>
      if k = k' then (k, v) :: t else (k', v') :: mapSet t k v

/-- Embeds `x || d` on an optional JS number: `null`/`undefined` and `0` are falsy. -/
def orNum (x : Option Int) (d : Int) : Int :=
  match x with
  | none => d
  | some n => if n = 0 then d else n

/-- Embeds `x || d` on an optional JS string: `null`/`undefined` and `""` are falsy. -/
def orStr (x : Option String) (d : String) : String :=
  match x with
  | none => d
  | some s => if s = "" then d else s

/-- Truthiness of an optional JS number (used by ternary guards). -/
def truthyNum (x : Option Rat) : Bool :=
  match x with
  | none => false
  | some n => n ≠ 0

/-- JS array indexing `l[i]`: out-of-range (including negative) is `undefined`. -/
def index {α : Type} (l : List α) (i : Int) : Option α :=
  if i < 0 then none else l.get? i.toNat

/-- Embeds `Math.round`: round half toward positive infinity. -/
def round (x : Rat) : Int := ⌊x + 1/2⌋

/-- Does the pattern occur at the head of the haystack? (char-list view) -/
def startsList : List Char → List Char → Bool
  | [], _ => true
  | _ :: _, [] => false
  | a :: p, b :: h => a = b && startsList p h

/-- Does the pattern occur anywhere in the haystack? (char-list view) -/
def hasSubList (pat : List Char) : List Char → Bool
  | [] => startsList pat []
  | c :: t => startsList pat (c :: t) || hasSubList pat t

/-- JS `String.prototype.includes`. -/
def includes (s pat : String) : Bool := hasSubList pat.toList s.toList

/-- JS `String.prototype.endsWith`. -/
def endsWith (s pat : String) : Bool :=
  startsList pat.toList.reverse s.toList.reverse

/-- ASCII lower-casing of one character (the only case the adapter's inputs
exercise; JS `toLowerCase` is Unicode-aware but the matched patterns are
ASCII). -/
def charLower (c : Char) : Char :=
  if 'A' ≤ c ∧ c ≤ 'Z' then Char.ofNat (c.toNat + 32) else c

/-- ASCII upper-casing of one character. -/
def charUpper (c : Char) : Char :=
  if 'a' ≤ c ∧ c ≤ 'z' then Char.ofNat (c.toNat - 32) else c

/-- JS `String.prototype.toLowerCase` (ASCII fragment). -/
def toLower (s : String) : String := String.mk (s.toList.map charLower)

end JS

namespace OpenWeatherMapAdapter

/-- One cache entry as stored by `_fetchWithCache`: `{data, timestamp}`. -/
structure CacheEntry (α : Type) where
  data : α
  timestamp : Int
  deriving Repr, DecidableEq

/-- The cache owned by one adapter instance (`this.cache`, a JS `Map`). -/
abbrev Cache (α : Type) := List (String × CacheEntry α)

/-- Outcome of one `_fetchWithCache` call: the value returned (or the error
propagated), the cache afterwards, whether a network request was issued, and
whether the `console.warn` stale-fallback signal fired. -/
structure FetchOutcome (α ε : Type) where
  result : Except ε α
  cache : Cache α
  fetched : Bool
  warned : Bool
  deriving Repr

/-- Embeds `OpenWeatherMapAdapter._fetchWithCache(url, cacheKey)`.
`ttl` is `this.cacheTTL`, `now` is `Date.now()` at the call, and `fetch`
carries the outcome the network would deliver if a request were issued
(`.ok` = 2xx response with parsed body, `.error` = transport error, non-2xx
status, or body-parse failure — all reach the same `catch`). -/
def fetchWithCache {α ε : Type} (ttl : Int) (cache : Cache α) (key : String)
    (now : Int) (fetch : Except ε α) : FetchOutcome α ε :=
  match JS.mapGet cache key with
  | some cached =>
      if now - cached.timestamp < ttl then
        -- fresh hit: return cached.data, no request
        ⟨.ok cached.data, cache, false, false⟩
      else
        match fetch with
        | .ok d => ⟨.ok d, JS.mapSet cache key ⟨d, now⟩, true, false⟩
        | .error _ =>
            -- "Using expired cache due to fetch error"
            ⟨.ok cached.data, cache, true, true⟩
  | none =>
      match fetch with
      | .ok d => ⟨.ok d, JS.mapSet cache key ⟨d, now⟩, true, false⟩
      | .error e => ⟨.error e, cache, true, false⟩

/-- Left-pad a numeral with zeros. -/
def padZeros (s : String) (w : Nat) : String :=
  if s.length ≥ w then s else String.mk (List.replicate (w - s.length) '0') ++ s

/-- A JS value that is either a string or a number (`visibility` in the
canonical current-conditions record is `(…).toFixed(1)` — a string — when the
source value is truthy, and the number `10` otherwise). -/
inductive StrOrNum where
  | str (s : String)
  | num (n : Rat)
  deriving Repr, DecidableEq

/-- Embeds `Number.prototype.toFixed(f)`: the integer nearest `x·10^f` (ties toward
larger, i.e. half-up for the nonnegative values this adapter formats),
printed with `f` decimal places. -/
def toFixed (f : Nat) (x : Rat) : String :=
  let n := JS.round (x * (10 ^ f : Nat))
  let a := n.natAbs
  let whole := a / 10 ^ f
  let frac := a % 10 ^ f
  (if n < 0 then "-" else "") ++ toString whole ++
    (if f = 0 then "" else "." ++ padZeros (toString frac) f)

/-- The cardinal-direction table of `_degToCardinal`. -/
def directions : List String :=
  ["N", "NNE", "NE", "ENE", "E", "ESE", "SE", "SSE",
   "S", "SSW", "SW", "WSW", "W", "WNW", "NW", "NNW"]

/-- Embeds `OpenWeatherMapAdapter._degToCardinal(deg)`. `null`/`undefined` wind
direction yields `'CALM'`; otherwise `directions[Math.round(deg/22.5) % 16]`
(JS `%` truncates, and a negative index reads as `undefined`, hence the
`Option` result). -/
def degToCardinal (deg : Option Rat) : Option String :=
  match deg with
  | none => some "CALM"
  | some d => JS.index directions ((JS.round (d / (45/2))).tmod 16)

/-- Embeds `OpenWeatherMapAdapter._getUVDescription(uvi)`. -/
def getUVDescription (uvi : Rat) : String :=
  if uvi < 3 then "Low"
  else if uvi < 6 then "Moderate"
  else if uvi < 8 then "High"
  else if uvi < 11 then "Very High"
  else "Extreme"

/-- Embeds `OpenWeatherMapAdapter._getAQICategory(aqi)`:
`categories[aqi - 1] || 'Unknown'`. -/
def getAQICategory (aqi : Int) : String :=
  let categories := ["Good", "Fair", "Moderate", "Poor", "Very Poor"]
  JS.orStr (JS.index categories (aqi - 1)) "Unknown"

/-- Embeds `OpenWeatherMapAdapter._getDayOfWeek(timestamp)`. `Date.getDay()` for a
Unix-seconds timestamp is `(floor(ts/86400) + 4) mod 7` (1970-01-01 was a
Thursday); the table index is always in range, so `getD` never defaults. -/
def getDayOfWeek (timestamp : Int) : String :=
  let days := ["Sunday", "Monday", "Tuesday", "Wednesday", "Thursday",
               "Friday", "Saturday"]
  days.getD ((timestamp / 86400 + 4) % 7).toNat ""

/-- Civil date from days since the Unix epoch (proleptic Gregorian),
used to embed `Date.prototype.toISOString`. -/
def civilFromDays (days : Int) : Int × Int × Int :=
  let z := days + 719468
  let era := z / 146097
  let doe := z - era * 146097
  let yoe := (doe - doe / 1460 + doe / 36524 - doe / 146096) / 365
  let doy := doe - (365 * yoe + yoe / 4 - yoe / 100)
  let mp := (5 * doy + 2) / 153
  let d := doy - (153 * mp + 2) / 5 + 1
  let m := mp + (if mp < 10 then 3 else (-9 : Int))
  (yoe + era * 400 + (if m ≤ 2 then 1 else 0), m, d)

/-- Embeds `OpenWeatherMapAdapter._formatLocalTime(timestamp, timezone)`:
`new Date(timestamp * 1000).toISOString()` — the timezone argument is read
but unused by the source, so the result is always UTC ISO-8601 with a fixed
`.000Z` millisecond field (timestamps are whole seconds). -/
def formatLocalTime (timestamp : Int) (_timezone : Option String := none) :
    String :=
  let days := timestamp / 86400
  let secs := timestamp % 86400
  let (y, m, d) := civilFromDays days
  padZeros (toString y) 4 ++ "-" ++ padZeros (toString m) 2 ++ "-" ++
    padZeros (toString d) 2 ++ "T" ++ padZeros (toString (secs / 3600)) 2 ++
    ":" ++ padZeros (toString (secs % 3600 / 60)) 2 ++ ":" ++
    padZeros (toString (secs % 60)) 2 ++ ".000Z"

/-- Embeds `OpenWeatherMapAdapter._capitalizeWeatherPhrase(phrase)`. -/
def capitalizeWeatherPhrase (phrase : String) : String :=
  String.intercalate " " ((phrase.splitOn " ").map fun word =>
    match word.toList with
    | [] => ""
    | c :: rest => String.mk (JS.charUpper c :: rest))

/-- Embeds `OpenWeatherMapAdapter._getAlertTypeCode(event)`. -/
def getAlertTypeCode (event : String) : String :=
  let lowerEvent := JS.toLower event
  if JS.includes lowerEvent "tornado" then "TOR"
  else if JS.includes lowerEvent "severe thunderstorm" then "SVR"
  else if JS.includes lowerEvent "flood" then "FLO"
  else if JS.includes lowerEvent "winter" then "WIN"
  else "WEA"

/-- Embeds `OpenWeatherMapAdapter._getAlertSeverity(tags)`. `!tags` is true exactly
for `null`/`undefined` (an empty array is truthy in JS, so it reaches the
final `return 2`). -/
def getAlertSeverity (tags : Option (List String)) : Nat :=
  match tags with
  | none => 3
  | some ts =>
      if ts.any (fun t => JS.includes (JS.toLower t) "extreme") then 4
      else if ts.any (fun t => JS.includes (JS.toLower t) "severe") then 3
      else 2

/-- The `iconMap` object literal of `mapOWMIconToWeathercom`, in source
order; the `800`–`803` entries depend on the day/night flag computed before
the literal is built. -/
def iconMapList (isNight : Bool) : List (Int × Nat) :=
  [(200, 38), (201, 38), (202, 38),
   (210, 37), (211, 37), (212, 37),
   (221, 37), (230, 38), (231, 38), (232, 38),
   (300, 9), (301, 9), (302, 9), (310, 9), (311, 9),
   (312, 9), (313, 9), (314, 9), (321, 9),
   (500, 11), (501, 12), (502, 12), (503, 12), (504, 12),
   (511, 10),
   (520, 11), (521, 11), (522, 12), (531, 12),
   (600, 14), (601, 16), (602, 41), (611, 10), (612, 10), (613, 10),
   (615, 5), (616, 5), (620, 14), (621, 14), (622, 16),
   (701, 20),
   (711, 22),
   (721, 19),
   (731, 19),
   (741, 20),
   (751, 19),
   (761, 19),
   (762, 19),
   (771, 23),
   (781, 0),
   (800, if isNight then 31 else 32),
   (801, if isNight then 33 else 30),
   (802, if isNight then 27 else 28),
   (803, if isNight then 27 else 28),
   (804, 26)]

/-- The `isNight` flag of `mapOWMIconToWeathercom`:
`iconCode && iconCode.endsWith('n')` (an absent or empty icon string is
falsy, and an empty string does not end with `'n'` anyway). -/
def isNightIcon (iconCode : Option String) : Bool :=
  match iconCode with
  | none => false
  | some s => !(s = "") && JS.endsWith s "n"

/-- Embeds `OpenWeatherMapAdapter.mapOWMIconToWeathercom(weatherId, iconCode)`.
The final `iconMap[weatherId] || 44` treats both a missing key
(`undefined`) and a stored `0` as falsy, so each yields `44`. -/
def mapOWMIconToWeathercom (weatherId : Int) (iconCode : Option String) :
    Nat :=
  match JS.mapGet (iconMapList (isNightIcon iconCode)) weatherId with
  | some v => if v = 0 then 44 else v
  | none => 44

/-- One element of an OpenWeatherMap `weather` array. -/
structure OWMWeather where
  id : Int
  description : String
  icon : Option String
  deriving Repr, DecidableEq

/-- Default used to embed `weather[0]`; real One Call payloads always carry a
nonempty `weather` array (an empty one would throw in the JS). -/
def defaultWeather : OWMWeather := ⟨0, "", none⟩

/-- OpenWeatherMap One Call `current` block (the fields the adapter reads). -/
structure OWMCurrent where
  dt : Int
  sunrise : Int
  sunset : Int
  temp : Rat
  feels_like : Rat
  pressure : Rat
  humidity : Rat
  dew_point : Rat
  uvi : Rat
  clouds : Rat
  visibility : Option Rat
  wind_speed : Rat
  wind_deg : Option Rat
  wind_gust : Option Rat
  weather : List OWMWeather
  deriving Repr, DecidableEq

/-- OpenWeatherMap One Call hourly entry. -/
structure OWMHour where
  dt : Int
  temp : Rat
  feels_like : Rat
  weather : List OWMWeather
  pop : Rat
  humidity : Rat
  wind_deg : Option Rat
  wind_speed : Rat
  wind_gust : Option Rat
  uvi : Rat
  clouds : Rat
  deriving Repr, DecidableEq

/-- OpenWeatherMap One Call daily temperature block. -/
structure OWMDayTemp where
  max : Rat
  min : Rat
  deriving Repr, DecidableEq

/-- OpenWeatherMap One Call daily entry. -/
structure OWMDay where
  dt : Int
  temp : OWMDayTemp
  summary : Option String
  weather : List OWMWeather
  pop : Rat
  humidity : Rat
  wind_deg : Option Rat
  wind_speed : Rat
  deriving Repr, DecidableEq

/-- OpenWeatherMap One Call alert entry. -/
structure OWMAlert where
  sender_name : String
  event : String
  start : Int
  «end» : Int
  description : String
  tags : Option (List String)
  deriving Repr, DecidableEq

/-- OpenWeatherMap One Call response (the fields the adapter reads). -/
structure OneCallData where
  current : OWMCurrent
  hourly : List OWMHour
  daily : List OWMDay
  alerts : Option (List OWMAlert)
  timezone : String
  lat : Rat
  lon : Rat
  deriving Repr, DecidableEq

/-- Air-pollution response: `main` block. -/
structure AQMain where
  aqi : Int
  deriving Repr, DecidableEq

/-- Air-pollution response: `components` block. -/
structure AQComponents where
  pm2_5 : Rat
  pm10 : Rat
  o3 : Rat
  no2 : Rat
  so2 : Rat
  co : Rat
  deriving Repr, DecidableEq

/-- Air-pollution response: one `list` element. -/
structure AQItem where
  main : AQMain
  components : AQComponents
  deriving Repr, DecidableEq

/-- Air-pollution response (`list` itself may be absent — the transform
guards `!owmAirQuality.list`). -/
structure AirResp where
  list : Option (List AQItem)
  deriving Repr, DecidableEq

/-- Canonical current-conditions record (weather.com shape). -/
structure CurrentConditions where
  temperature : Int
  wxPhraseLong : String
  iconCode : Nat
  relativeHumidity : Rat
  temperatureDewPoint : Int
  pressureAltimeter : String
  pressureTendencyCode : Int
  windDirectionCardinal : Option String
  windSpeed : Int
  windGust : Int
  temperatureFeelsLike : Int
  temperatureHeatIndex : Int
  temperatureWindChill : Int
  visibility : StrOrNum
  uvDescription : String
  uvIndex : Rat
  cloudCeiling : Rat
  sunriseTimeLocal : String
  sunsetTimeLocal : String
  validTimeLocal : String
  deriving Repr, DecidableEq

/-- Canonical hourly-forecast record. -/
structure HourlyForecast where
  validTimeLocal : String
  temperature : Int
  temperatureFeelsLike : Int
  wxPhraseLong : String
  iconCode : Nat
  precipChance : Int
  relativeHumidity : Rat
  windDirectionCardinal : Option String
  windSpeed : Int
  windGust : Int
  uvIndex : Rat
  cloudCover : Rat
  deriving Repr, DecidableEq

/-- Canonical daypart record (paired day/night lists). -/
structure Daypart where
  daypartName : List String
  iconCode : List Nat
  precipChance : List Int
  relativeHumidity : List Rat
  windDirectionCardinal : List (Option String)
  windSpeed : List Int
  wxPhraseLong : List String
  deriving Repr, DecidableEq

/-- Canonical daily-forecast record. -/
structure DailyForecast where
  dayOfWeek : String
  validTimeLocal : String
  temperatureMax : Int
  temperatureMin : Int
  narrative : String
  daypart : List Daypart
  deriving Repr, DecidableEq

/-- Canonical alert record. -/
structure Alert where
  detailKey : String
  messageTypeCode : String
  phenomena : String
  significance : String
  eventDescription : String
  headlineText : String
  source : String
  disclaimer : Option String
  issueTimeLocal : String
  expireTimeLocal : String
  severityCode : Nat
  categories : List String
  responseTypes : List String
  urgency : String
  certainty : String
  eventOnsetTimeLocal : String
  eventEndTimeLocal : String
  description : String
  deriving Repr, DecidableEq

/-- Canonical pollutant block. -/
structure Pollutants where
  pm25 : Rat
  pm10 : Rat
  o3 : Rat
  no2 : Rat
  so2 : Rat
  co : Rat
  deriving Repr, DecidableEq

/-- Canonical air-quality record. -/
structure AirQuality where
  airQualityCategoryIndex : Int
  airQualityCategory : String
  airQualityIndex : Int
  primaryPollutant : String
  pollutants : Pollutants
  deriving Repr, DecidableEq

/-- Embeds `OpenWeatherMapAdapter.transformCurrentConditions(owmCurrent, timezone)`. -/
def transformCurrentConditions (c : OWMCurrent)
    (timezone : Option String := none) : CurrentConditions :=
  let w := c.weather.headD defaultWeather
  { temperature := JS.round c.temp
    wxPhraseLong := capitalizeWeatherPhrase w.description
    iconCode := mapOWMIconToWeathercom w.id w.icon
    relativeHumidity := c.humidity
    temperatureDewPoint := JS.round c.dew_point
    pressureAltimeter := toFixed 2 (c.pressure * 0.02953)
    pressureTendencyCode := 0
    windDirectionCardinal := degToCardinal c.wind_deg
    windSpeed := JS.round c.wind_speed
    windGust :=
      match c.wind_gust with
      | some g => if g ≠ 0 then JS.round g else JS.round c.wind_speed
      | none => JS.round c.wind_speed
    temperatureFeelsLike := JS.round c.feels_like
    temperatureHeatIndex := JS.round c.feels_like
    temperatureWindChill := JS.round c.feels_like
    visibility :=
      match c.visibility with
      | some v => if v ≠ 0 then .str (toFixed 1 (v / 1609.34)) else .num 10
      | none => .num 10
    uvDescription := getUVDescription c.uvi
    uvIndex := c.uvi
    cloudCeiling := c.clouds
    sunriseTimeLocal := formatLocalTime c.sunrise timezone
    sunsetTimeLocal := formatLocalTime c.sunset timezone
    validTimeLocal := formatLocalTime c.dt timezone }

/-- Embeds `OpenWeatherMapAdapter.transformHourlyForecast(owmHourly, timezone)`. -/
def transformHourlyForecast (hours : List OWMHour)
    (timezone : Option String := none) : List HourlyForecast :=
  hours.map fun hour =>
    let w := hour.weather.headD defaultWeather
    { validTimeLocal := formatLocalTime hour.dt timezone
      temperature := JS.round hour.temp
      temperatureFeelsLike := JS.round hour.feels_like
      wxPhraseLong := capitalizeWeatherPhrase w.description
      iconCode := mapOWMIconToWeathercom w.id w.icon
      precipChance := JS.round (hour.pop * 100)
      relativeHumidity := hour.humidity
      windDirectionCardinal := degToCardinal hour.wind_deg
      windSpeed := JS.round hour.wind_speed
      windGust :=
        match hour.wind_gust with
        | some g => if g ≠ 0 then JS.round g else JS.round hour.wind_speed
        | none => JS.round hour.wind_speed
      uvIndex := hour.uvi
      cloudCover := hour.clouds }

/-- Embeds `OpenWeatherMapAdapter.transformDailyForecast(owmDaily, timezone)`. -/
def transformDailyForecast (days : List OWMDay)
    (timezone : Option String := none) : List DailyForecast :=
  days.mapIdx fun index day =>
    let w := day.weather.headD defaultWeather
    { dayOfWeek := getDayOfWeek day.dt
      validTimeLocal := formatLocalTime day.dt timezone
      temperatureMax := JS.round day.temp.max
      temperatureMin := JS.round day.temp.min
      narrative :=
        JS.orStr day.summary (capitalizeWeatherPhrase w.description)
      daypart := [{
        daypartName :=
          [if index = 0 then "Today" else getDayOfWeek day.dt,
           if index = 0 then "Tonight" else getDayOfWeek day.dt ++ " night"]
        iconCode :=
          [mapOWMIconToWeathercom w.id (some "01d"),
           mapOWMIconToWeathercom w.id (some "01n")]
        precipChance := [JS.round (day.pop * 100), JS.round (day.pop * 100)]
        relativeHumidity := [day.humidity, day.humidity]
        windDirectionCardinal :=
          [degToCardinal day.wind_deg, degToCardinal day.wind_deg]
        windSpeed := [JS.round day.wind_speed, JS.round day.wind_speed]
        wxPhraseLong :=
          [capitalizeWeatherPhrase w.description,
           capitalizeWeatherPhrase w.description] }] }

/-- Embeds `OpenWeatherMapAdapter.transformAlerts(owmAlerts)`. -/
def transformAlerts (owmAlerts : Option (List OWMAlert)) : List Alert :=
  match owmAlerts with
  | none => []
  | some alerts =>
      alerts.map fun alert =>
        { detailKey := alert.sender_name ++ "_" ++ toString alert.start
          messageTypeCode := getAlertTypeCode alert.event
          phenomena := alert.event
          significance := "W"
          eventDescription := alert.event
          headlineText := alert.event
          source := alert.sender_name
          disclaimer := none
          issueTimeLocal := formatLocalTime alert.start
          expireTimeLocal := formatLocalTime alert.«end»
          severityCode := getAlertSeverity alert.tags
          categories := alert.tags.getD []
          responseTypes := []
          urgency := "Unknown"
          certainty := "Observed"
          eventOnsetTimeLocal := formatLocalTime alert.start
          eventEndTimeLocal := formatLocalTime alert.«end»
          description := alert.description }

/-- Embeds `OpenWeatherMapAdapter.transformAirQuality(owmAirQuality)`. Note the
source quirk embedded faithfully: the `o3` comparison updates only the
pollutant name, never `maxValue`, so the subsequent `no2` comparison still
uses the PM-derived maximum. -/
def transformAirQuality (owmAirQuality : Option AirResp) : Option AirQuality :=
  match owmAirQuality with
  | none => none
  | some resp =>
      match resp.list with
      | none => none
      | some [] => none
      | some (aqi :: _) =>
          let components := aqi.components
          let pp1 := "PM2.5"
          let maxV1 := components.pm2_5
          let pp2 := if components.pm10 > maxV1 then "PM10" else pp1
          let maxV2 := if components.pm10 > maxV1 then components.pm10 else maxV1
          let pp3 := if components.o3 > maxV2 then "Ozone" else pp2
          let pp4 := if components.no2 > maxV2 then "NO2" else pp3
          some
            { airQualityCategoryIndex := aqi.main.aqi
              airQualityCategory := getAQICategory aqi.main.aqi
              airQualityIndex := aqi.main.aqi
              primaryPollutant := pp4
              pollutants :=
                { pm25 := components.pm2_5
                  pm10 := components.pm10
                  o3 := components.o3
                  no2 := components.no2
                  so2 := components.so2
                  co := components.co } }

/-- The aggregated snapshot returned by `getCompleteWeatherData`. -/
structure WeatherSnapshot where
  current : CurrentConditions
  hourly : List HourlyForecast
  daily : List DailyForecast
  alerts : List Alert
  airQuality : Option AirQuality
  timezone : String
  lat : Rat
  lon : Rat
  deriving Repr, DecidableEq

/-- Embeds `OpenWeatherMapAdapter.getCompleteWeatherData(lat, lon)`.
The two network calls are issued by `Promise.all` before either result is
inspected, so the embedding receives both outcomes as independent
parameters. The air-quality promise carries its own
`.catch(e => … return null)`, so its failure becomes `null`; a failure of
the One Call fetch reaches the outer `catch`, which rethrows. -/
def getCompleteWeatherData {ε : Type}
    (oneCall : Except ε OneCallData) (airQuality : Except ε AirResp) :
    Except ε WeatherSnapshot :=
  match oneCall with
  | .error e => .error e
  | .ok oc =>
      .ok
        { current := transformCurrentConditions oc.current (some oc.timezone)
          hourly := transformHourlyForecast (oc.hourly.take 48) (some oc.timezone)
          daily := transformDailyForecast (oc.daily.take 8) (some oc.timezone)
          alerts := transformAlerts oc.alerts
          airQuality :=
            match airQuality with
            | .ok a => transformAirQuality (some a)
            | .error _ => none
          timezone := oc.timezone
          lat := oc.lat
          lon := oc.lon }

/-- A `{lat, lon}` pair as consumed by `getBatchWeatherData`. -/
structure Location where
  lat : Rat
  lon : Rat
  deriving Repr, DecidableEq

/-- Embeds `OpenWeatherMapAdapter.getBatchWeatherData(locations)`: one
`getCompleteWeatherData` per location with a per-promise
`.catch(error => … return null)`, joined positionally by `Promise.all`.
`fetchOneCall`/`fetchAir` carry each location's network outcomes. -/
def getBatchWeatherData {ε : Type}
    (fetchOneCall : Location → Except ε OneCallData)
    (fetchAir : Location → Except ε AirResp)
    (locations : List Location) : List (Option WeatherSnapshot) :=
  locations.map fun loc =>
    (getCompleteWeatherData (fetchOneCall loc) (fetchAir loc)).toOption

end OpenWeatherMapAdapter

namespace RainViewerAdapter

/-- One frame descriptor in the RainViewer weather-maps manifest. -/
structure RVFrame where
  time : Int
  path : String
  deriving Repr, DecidableEq

/-- The `radar` block of the manifest (`past`/`nowcast` may be absent —
`getRadarTimestamps` guards with `maps.radar?.past || []`). -/
structure RVRadar where
  past : Option (List RVFrame)
  nowcast : Option (List RVFrame)
  deriving Repr, DecidableEq

/-- The `satellite` block of the manifest. -/
structure RVSatellite where
  infrared : Option (List RVFrame)
  deriving Repr, DecidableEq

/-- A RainViewer weather-maps manifest, as returned by `getAvailableMaps`. -/
structure RVManifest where
  radar : Option RVRadar
  satellite : Option RVSatellite
  deriving Repr, DecidableEq

/-- Result shape of `getRadarTimestamps`. -/
structure RadarTimestamps where
  past : List Int
  nowcast : List Int
  all : List Int
  current : Option Int
  deriving Repr, DecidableEq

/-- Embeds `RainViewerAdapter.getRadarTimestamps()`, as a function of the manifest
delivered by `getAvailableMaps`. `past[past.length - 1]` on a nonempty list
is its last element, and the guarded conditional yields `null` on an empty
one — i.e. `getLast?`. -/
def getRadarTimestamps (maps : RVManifest) : RadarTimestamps :=
  let past := (maps.radar.bind RVRadar.past).getD []
  let nowcast := (maps.radar.bind RVRadar.nowcast).getD []
  let pastTimestamps := past.map RVFrame.time
  let nowcastTimestamps := nowcast.map RVFrame.time
  { past := pastTimestamps
    nowcast := nowcastTimestamps
    all := pastTimestamps ++ nowcastTimestamps
    current := pastTimestamps.getLast? }

/-- One frame of the weather.com-style series built by `getRadarSeries`. -/
structure SeriesFrame where
  ts : Int
  isPast : Bool
  deriving Repr, DecidableEq

/-- The constant `metadata` block of `getRadarSeries`. -/
structure SeriesMetadata where
  source : String
  updateInterval : Int
  deriving Repr, DecidableEq

/-- Result shape of `getRadarSeries`. -/
structure RadarSeries where
  series : List SeriesFrame
  current : Option Int
  metadata : SeriesMetadata
  deriving Repr, DecidableEq

/-- Embeds `RainViewerAdapter.getRadarSeries()`: each merged timestamp is tagged
`isPast = timestamps.past.includes(ts)`. -/
def getRadarSeries (maps : RVManifest) : RadarSeries :=
  let timestamps := getRadarTimestamps maps
  { series := timestamps.all.map fun ts => ⟨ts, timestamps.past.contains ts⟩
    current := timestamps.current
    metadata := ⟨"RainViewer", 300000⟩ }

/-- The style options object accepted by `getRadarTileUrl` (absent fields are
`undefined`). -/
structure TileOptions where
  size : Option Int := none
  color : Option Int := none
  smooth : Option Int := none
  snow : Option Int := none
  deriving Repr, DecidableEq

/-- Embeds `this.tileBaseUrl`. -/
def tileBaseUrl : String := "https://tilecache.rainviewer.com"

/-- The radar tile URL template
`${tileBaseUrl}/v2/radar/${timestamp}/${z}/${x}/${y}/${size}/${color}_${smooth}.png`
applied to already-resolved style values. -/
def radarTileUrlRaw (timestamp z x y size color smooth : Int) : String :=
  s!"{tileBaseUrl}/v2/radar/{timestamp}/{z}/{x}/{y}/{size}/{color}_{smooth}.png"

/-- Embeds `RainViewerAdapter.getRadarTileUrl(timestamp, z, x, y, options)`: pure
string construction. Each option is read with `options.x || default`
(`undefined` and `0` are falsy); the `snow` option is computed by the source
but never used in the URL. -/
def getRadarTileUrl (timestamp z x y : Int) (options : TileOptions := {}) :
    String :=
  let size := JS.orNum options.size 256
  let color := JS.orNum options.color 1
  let smooth := JS.orNum options.smooth 1
  let _snow := JS.orNum options.snow 1
  radarTileUrlRaw timestamp z x y size color smooth

/-- Embeds `RainViewerAdapter.getColorSchemes()`: the fixed 0–8 enumeration of
color schemes, as an association list. -/
def getColorSchemes : List (Int × String) :=
  [(0, "Original"), (1, "Universal Blue"), (2, "TITAN"),
   (3, "The Weather Channel"), (4, "Meteored"), (5, "NEXRAD Level III"),
   (6, "RAINBOW @ SELEX-SI"), (7, "Dark Sky"), (8, "Black & White")]

/-- Is an integer list ascending (adjacent pairs non-decreasing)? -/
def ascChain : List Int → Bool
  | [] => true
  | [_] => true
  | a :: b :: t => a ≤ b && ascChain (b :: t)

/-- Do all `isPast = true` frames precede all `isPast = false` frames? -/
def pastsFirst (l : List SeriesFrame) : Bool :=
  (l.dropWhile SeriesFrame.isPast).all fun f => !f.isPast

/-- The spec's ImageryTimeline ordering invariant: past frames first, and
each of the two groups internally ascending by timestamp. -/
def seriesOrdered (l : List SeriesFrame) : Bool :=
  pastsFirst l &&
    ascChain ((l.filter SeriesFrame.isPast).map SeriesFrame.ts) &&
    ascChain ((l.filter fun f => !f.isPast).map SeriesFrame.ts)

end RainViewerAdapter

/-! ## Helper lemmas -/

/-- Reading a key just written into a JS `Map` returns the written value. -/
theorem JS.mapGet_mapSet_self {κ ν : Type} [DecidableEq κ]
    (c : List (κ × ν)) (k : κ) (v : ν) :
    JS.mapGet (JS.mapSet c k v) k = some v := by
  induction c with
  | nil => simp [JS.mapSet, JS.mapGet]
  | cons hd t ih =>
      obtain ⟨k', v'⟩ := hd
      by_cases h : k = k' <;> simp [JS.mapSet, JS.mapGet, h, ih]

/-- A successful JS object lookup returns one of the stored values. -/
theorem JS.mapGet_mem_values {κ ν : Type} [DecidableEq κ]
    (l : List (κ × ν)) (k : κ) (v : ν)
    (h : JS.mapGet l k = some v) : v ∈ l.map Prod.snd := by
  induction l with
  | nil => simp [JS.mapGet] at h
  | cons hd t ih =>
      obtain ⟨k', v'⟩ := hd
      by_cases hk : k = k'
      · simp [JS.mapGet, hk] at h
        simp [h]
      · simp [JS.mapGet, hk] at h
        simp [ih h]

/-! ## Claim theorems -/

open OpenWeatherMapAdapter RainViewerAdapter

/-- C1. For every cache key, if the cache holds an entry for that key that is
no longer fresh and the network fetch fails, then `_fetchWithCache` returns
the previously cached value (leaving the cache unchanged) and emits the
warning-level signal; if no cached entry exists for the key at all, the
failure propagates to the caller. -/
theorem fetchWithCache_stale_fallback {α ε : Type} (ttl : Int)
    (cache : Cache α) (key : String) (now : Int) (err : ε) :
    (∀ e : CacheEntry α, JS.mapGet cache key = some e →
        ¬(now - e.timestamp < ttl) →
        fetchWithCache ttl cache key now (Except.error err) =
          ⟨Except.ok e.data, cache, true, true⟩) ∧
    (JS.mapGet cache key = none →
        fetchWithCache ttl cache key now (Except.error err) =
          ⟨Except.error err, cache, true, false⟩) := by
  constructor
  · intro e he hstale
    simp [fetchWithCache, he, hstale]
  · intro hnone
    simp [fetchWithCache, hnone]

/-- C1 witness: a concrete stale entry served with a warning, and a concrete
cold-cache failure propagated. -/
theorem fetchWithCache_stale_fallback_witness :
    fetchWithCache 600000 [("k", ⟨(7 : Nat), 0⟩)] "k" 600000
        (Except.error "boom") =
      ⟨Except.ok 7, [("k", ⟨7, 0⟩)], true, true⟩ ∧
    fetchWithCache 600000 ([] : Cache Nat) "k" 600000
        (Except.error "boom") =
      ⟨Except.error "boom", [], true, false⟩ :=
  ⟨(fetchWithCache_stale_fallback 600000 [("k", ⟨7, 0⟩)] "k" 600000 "boom").1
      ⟨7, 0⟩ (by decide) (by decide),
   (fetchWithCache_stale_fallback 600000 [] "k" 600000 "boom").2 (by decide)⟩

/-- C5. A fresh cache hit is served without a network request and without
touching the cache; consequently two calls with the same key inside one TTL
window (the first on a cold key, succeeding) perform exactly one network
fetch: the first call fetches and the second does not. -/
theorem fetchWithCache_fresh_hit {α ε : Type} (ttl : Int) (cache : Cache α)
    (key : String) (t0 t1 : Int) (d : α) (fr fr2 : Except ε α) :
    (∀ e : CacheEntry α, JS.mapGet cache key = some e →
        t0 - e.timestamp < ttl →
        fetchWithCache ttl cache key t0 fr =
          ⟨Except.ok e.data, cache, false, false⟩) ∧
    (JS.mapGet cache key = none → t1 - t0 < ttl →
        fetchWithCache ttl cache key t0 (Except.ok d : Except ε α) =
          ⟨Except.ok d, JS.mapSet cache key ⟨d, t0⟩, true, false⟩ ∧
        fetchWithCache ttl (JS.mapSet cache key ⟨d, t0⟩) key t1 fr2 =
          ⟨Except.ok d, JS.mapSet cache key ⟨d, t0⟩, false, false⟩) := by
  constructor
  · intro e he hfresh
    simp [fetchWithCache, he, hfresh]
  · intro hnone hwin
    refine ⟨by simp [fetchWithCache, hnone], ?_⟩
    simp [fetchWithCache, JS.mapGet_mapSet_self, hwin]

/-- C5 witness: a cold key fetched once at time 0 and served from cache at
time 300000 with a 10-minute TTL. -/
theorem fetchWithCache_fresh_hit_witness :
    fetchWithCache 600000 ([] : Cache Nat) "k" 0
        (Except.ok (5 : Nat) (ε := String)) =
      ⟨Except.ok 5, [("k", ⟨5, 0⟩)], true, false⟩ ∧
    fetchWithCache 600000 [("k", ⟨(5 : Nat), 0⟩)] "k" 300000
        (Except.error "down") =
      ⟨Except.ok 5, [("k", ⟨5, 0⟩)], false, false⟩ := by
  have h := (fetchWithCache_fresh_hit 600000 ([] : Cache Nat) "k" 0 300000 5
      (Except.error "down") (Except.error "down")).2 (by decide) (by decide)
  exact ⟨h.1, h.2⟩

/-- The canonical icon-code vocabulary reachable from the adapter's table
together with the `44` "N/A" sentinel. -/
def weathercomIconCodes : List Nat :=
  [0, 5, 9, 10, 11, 12, 14, 16, 19, 20, 22, 23, 26, 27, 28, 30, 31, 32, 33,
   37, 38, 41, 44]

/-- Every value stored in the condition-code table lies in the canonical
icon vocabulary, whichever day/night variant is selected. -/
theorem iconMapList_values_sub (b : Bool) :
    ∀ v ∈ (iconMapList b).map Prod.snd, v ∈ weathercomIconCodes := by
  cases b <;> decide

/-- C4. For every numeric condition identifier (inside or outside the
provider's documented range) and every icon-suffix value,
`mapOWMIconToWeathercom` returns a defined canonical icon code, and an
identifier absent from the table resolves to the `44` sentinel. -/
theorem mapOWMIconToWeathercom_total (weatherId : Int)
    (iconCode : Option String) :
    mapOWMIconToWeathercom weatherId iconCode ∈ weathercomIconCodes ∧
    (JS.mapGet (iconMapList (isNightIcon iconCode)) weatherId = none →
      mapOWMIconToWeathercom weatherId iconCode = 44) := by
  constructor
  · cases h : JS.mapGet (iconMapList (isNightIcon iconCode)) weatherId with
    | none => simp [mapOWMIconToWeathercom, h, weathercomIconCodes]
    | some v =>
        have hv := iconMapList_values_sub (isNightIcon iconCode) v
          (JS.mapGet_mem_values _ _ _ h)
        have hmap : mapOWMIconToWeathercom weatherId iconCode =
            if v = 0 then 44 else v := by
          simp [mapOWMIconToWeathercom, h]
        rw [hmap]
        by_cases h0 : v = 0
        · simp [h0, weathercomIconCodes]
        · simp only [if_neg h0]
          exact hv
  · intro h
    simp [mapOWMIconToWeathercom, h]

/-- C4 witness: the deliberately out-of-range identifier `999` is absent
from the table and maps to the sentinel `44`. -/
theorem mapOWMIconToWeathercom_total_witness :
    mapOWMIconToWeathercom 999 (some "01d") ∈ weathercomIconCodes ∧
    mapOWMIconToWeathercom 999 (some "01d") = 44 :=
  ⟨(mapOWMIconToWeathercom_total 999 (some "01d")).1,
   (mapOWMIconToWeathercom_total 999 (some "01d")).2 (by decide)⟩

/-- C10. The table maps the tornado identifier `781` to icon code `0`, yet
`mapOWMIconToWeathercom` returns the unmapped-input sentinel `44` for it,
because `iconMap[weatherId] || 44` treats the stored `0` as falsy — for both
day and night icon suffixes. -/
theorem mapOWMIconToWeathercom_tornado_zero :
    JS.mapGet (iconMapList (isNightIcon (some "01d"))) 781 = some 0 ∧
    JS.mapGet (iconMapList (isNightIcon (some "01n"))) 781 = some 0 ∧
    mapOWMIconToWeathercom 781 (some "01d") = 44 ∧
    mapOWMIconToWeathercom 781 (some "01n") = 44 ∧
    mapOWMIconToWeathercom 781 (some "01d") ≠ 0 := by
  decide

/-- C6 counterexample: the claim says an absent tag list yields the lowest
tier `2`, but `_getAlertSeverity` opens with `if (!tags) return 3`, so an
absent tag list yields `3`. -/
theorem getAlertSeverity_none_ne_two :
    getAlertSeverity none = 3 ∧ getAlertSeverity none ≠ 2 := by
  decide

/-- C6 (amended). `_getAlertSeverity` classifies by substring matching with
`'extreme'` checked before `'severe'`: if some tag contains `'extreme'`
(case-insensitively) the result is 4; otherwise if some tag contains
`'severe'` the result is 3; an absent tag list also yields 3; every other
present tag list (including the empty one) yields 2. -/
theorem getAlertSeverity_spec (tags : List String) :
    ((∃ t ∈ tags, JS.includes (JS.toLower t) "extreme" = true) →
      getAlertSeverity (some tags) = 4) ∧
    ((¬∃ t ∈ tags, JS.includes (JS.toLower t) "extreme" = true) →
      (∃ t ∈ tags, JS.includes (JS.toLower t) "severe" = true) →
      getAlertSeverity (some tags) = 3) ∧
    ((¬∃ t ∈ tags, JS.includes (JS.toLower t) "extreme" = true) →
      (¬∃ t ∈ tags, JS.includes (JS.toLower t) "severe" = true) →
      getAlertSeverity (some tags) = 2) ∧
    getAlertSeverity (none : Option (List String)) = 3 := by
  have he : (tags.any fun t => JS.includes (JS.toLower t) "extreme") = true ↔
      ∃ t ∈ tags, JS.includes (JS.toLower t) "extreme" = true :=
    List.any_eq_true
  have hs : (tags.any fun t => JS.includes (JS.toLower t) "severe") = true ↔
      ∃ t ∈ tags, JS.includes (JS.toLower t) "severe" = true :=
    List.any_eq_true
  refine ⟨?_, ?_, ?_, rfl⟩
  · intro h
    simp [getAlertSeverity, he.mpr h]
  · intro hne h
    have hne' : (tags.any fun t => JS.includes (JS.toLower t) "extreme") = false :=
      by simpa [he] using hne
    simp [getAlertSeverity, hne', hs.mpr h]
  · intro hne hns
    have hne' : (tags.any fun t => JS.includes (JS.toLower t) "extreme") = false :=
      by simpa [he] using hne
    have hns' : (tags.any fun t => JS.includes (JS.toLower t) "severe") = false :=
      by simpa [hs] using hns
    simp [getAlertSeverity, hne', hns']

/-- C6 witness: each tier of the amended classification reached at a
concrete tag list. -/
theorem getAlertSeverity_spec_witness :
    getAlertSeverity (some ["EXTREME wind warning"]) = 4 ∧
    getAlertSeverity (some ["flood", "Severe thunderstorm"]) = 3 ∧
    getAlertSeverity (some ["minor flooding"]) = 2 :=
  ⟨(getAlertSeverity_spec ["EXTREME wind warning"]).1 (by decide),
   (getAlertSeverity_spec ["flood", "Severe thunderstorm"]).2.1 (by decide)
     (by decide),
   (getAlertSeverity_spec ["minor flooding"]).2.2.1 (by decide) (by decide)⟩

/-- C9. `getRadarTimestamps` returns the past timestamps followed by the
nowcast timestamps, each sub-list preserved in its native order, with
`current` equal to the last past timestamp, and `current = null` (not an
error) when there are no past frames. -/
theorem getRadarTimestamps_merge (maps : RVManifest) :
    (getRadarTimestamps maps).past =
      ((maps.radar.bind RVRadar.past).getD []).map RVFrame.time ∧
    (getRadarTimestamps maps).nowcast =
      ((maps.radar.bind RVRadar.nowcast).getD []).map RVFrame.time ∧
    (getRadarTimestamps maps).all =
      (getRadarTimestamps maps).past ++ (getRadarTimestamps maps).nowcast ∧
    ((getRadarTimestamps maps).past = [] →
      (getRadarTimestamps maps).current = none) ∧
    (∀ (l : List Int) (z : Int), (getRadarTimestamps maps).past = l ++ [z] →
      (getRadarTimestamps maps).current = some z) := by
  have hc : (getRadarTimestamps maps).current =
      (getRadarTimestamps maps).past.getLast? := rfl
  refine ⟨rfl, rfl, rfl, ?_, ?_⟩
  · intro h
    rw [hc, h]
    rfl
  · intro l z h
    rw [hc, h, List.getLast?_concat]

/-- C9 witness: the spec's worked example (`past [100,200]`,
`forecast [300,400]` merge to `[100,200,300,400]` with `current = 200`) and
the zero-past-frames edge case (`current = null`). -/
theorem getRadarTimestamps_merge_witness :
    (getRadarTimestamps
        ⟨some ⟨some [⟨100, "p0"⟩, ⟨200, "p1"⟩],
               some [⟨300, "n0"⟩, ⟨400, "n1"⟩]⟩, none⟩).all =
      [100, 200, 300, 400] ∧
    (getRadarTimestamps
        ⟨some ⟨some [⟨100, "p0"⟩, ⟨200, "p1"⟩],
               some [⟨300, "n0"⟩, ⟨400, "n1"⟩]⟩, none⟩).current = some 200 ∧
    (getRadarTimestamps ⟨some ⟨some [], some [⟨300, "n0"⟩]⟩, none⟩).current =
      none :=
  ⟨((getRadarTimestamps_merge
      ⟨some ⟨some [⟨100, "p0"⟩, ⟨200, "p1"⟩],
             some [⟨300, "n0"⟩, ⟨400, "n1"⟩]⟩, none⟩).2.2.1).trans (by decide),
   (getRadarTimestamps_merge
      ⟨some ⟨some [⟨100, "p0"⟩, ⟨200, "p1"⟩],
             some [⟨300, "n0"⟩, ⟨400, "n1"⟩]⟩, none⟩).2.2.2.2 [100] 200
     (by decide),
   (getRadarTimestamps_merge
      ⟨some ⟨some [], some [⟨300, "n0"⟩]⟩, none⟩).2.2.2.1 (by decide)⟩

/-- In a series made of past frames (tagged `true`) followed by nowcast
frames (tagged `false`), all past frames precede all nowcast frames. -/
theorem pastsFirst_true_then_false (P N : List Int) :
    pastsFirst (P.map (fun t => (⟨t, true⟩ : SeriesFrame)) ++
      N.map (fun t => (⟨t, false⟩ : SeriesFrame))) = true := by
  induction P with
  | nil =>
      cases N with
      | nil => rfl
      | cons n t =>
          simp [pastsFirst, List.dropWhile_cons, SeriesFrame.isPast,
            List.all_map, Function.comp]
  | cons p ps ih =>
      simpa [pastsFirst, List.dropWhile_cons, SeriesFrame.isPast]
        using ih

/-- Filtering the same series by the past flag recovers exactly the two
timestamp groups. -/
theorem series_filter_groups (P N : List Int) :
    ((P.map (fun t => (⟨t, true⟩ : SeriesFrame)) ++
        N.map (fun t => (⟨t, false⟩ : SeriesFrame))).filter
          SeriesFrame.isPast).map SeriesFrame.ts = P ∧
    ((P.map (fun t => (⟨t, true⟩ : SeriesFrame)) ++
        N.map (fun t => (⟨t, false⟩ : SeriesFrame))).filter
          (fun f => !f.isPast)).map SeriesFrame.ts = N := by
  constructor <;>
    simp [List.filter_append, List.filter_map, Function.comp_def,
      List.map_map]

/-- C7 (amended). Provided each manifest sub-list is chronologically
ascending and no nowcast timestamp equals a past timestamp, the series built
by `getRadarSeries` satisfies the ordering invariant: all `isPast = true`
frames precede all `isPast = false` frames and each group is internally
ascending. (Without the no-duplicate proviso the invariant can fail, because
a nowcast frame whose timestamp also occurs among the past frames is tagged
`isPast = true` by `past.includes(ts)`.) -/
theorem getRadarSeries_ordered (maps : RVManifest)
    (hpast : ascChain (getRadarTimestamps maps).past = true)
    (hnow : ascChain (getRadarTimestamps maps).nowcast = true)
    (hdisj : ∀ t ∈ (getRadarTimestamps maps).nowcast,
      t ∉ (getRadarTimestamps maps).past) :
    seriesOrdered (getRadarSeries maps).series = true := by
  have hseries : (getRadarSeries maps).series =
      (getRadarTimestamps maps).past.map (fun t => (⟨t, true⟩ : SeriesFrame)) ++
        (getRadarTimestamps maps).nowcast.map
          (fun t => (⟨t, false⟩ : SeriesFrame)) := by
    show ((getRadarTimestamps maps).past ++
        (getRadarTimestamps maps).nowcast).map
          (fun ts => (⟨ts, (getRadarTimestamps maps).past.contains ts⟩ :
            SeriesFrame)) = _
    rw [List.map_append]
    congr 1
    · refine List.map_congr_left fun t ht => ?_
      have : (getRadarTimestamps maps).past.contains t = true :=
        List.elem_iff.mpr ht
      rw [this]
    · refine List.map_congr_left fun t ht => ?_
      have : (getRadarTimestamps maps).past.contains t = false := by
        rcases hcon : (getRadarTimestamps maps).past.contains t with _ | _
        · rfl
        · exact absurd (List.elem_iff.mp hcon) (hdisj t ht)
      rw [this]
  have hg := series_filter_groups (getRadarTimestamps maps).past
    (getRadarTimestamps maps).nowcast
  rw [hseries]
  simp only [seriesOrdered, Bool.and_eq_true]
  exact ⟨⟨pastsFirst_true_then_false _ _, by rw [hg.1]; exact hpast⟩,
    by rw [hg.2]; exact hnow⟩

/-- C7 witness: a manifest with ascending, disjoint sub-lists whose series
satisfies the ordering invariant. -/
theorem getRadarSeries_ordered_witness :
    seriesOrdered (getRadarSeries
      ⟨some ⟨some [⟨100, "p0"⟩, ⟨200, "p1"⟩],
             some [⟨300, "n0"⟩, ⟨400, "n1"⟩]⟩, none⟩).series = true :=
  getRadarSeries_ordered
    ⟨some ⟨some [⟨100, "p0"⟩, ⟨200, "p1"⟩],
           some [⟨300, "n0"⟩, ⟨400, "n1"⟩]⟩, none⟩
    (by decide) (by decide) (by decide)

/-- C7 counterexample: a manifest whose sub-lists are each chronologically
ascending but share the timestamp `100`; the duplicated nowcast frame is
tagged `isPast = true`, so the past group reads `[100, 200, 100]` and the
ordering invariant fails — refuting the claim for manifests where a forecast
timestamp equals a past timestamp. -/
theorem getRadarSeries_ordered_counterexample :
    ascChain (getRadarTimestamps
      ⟨some ⟨some [⟨100, "p0"⟩, ⟨200, "p1"⟩],
             some [⟨100, "n0"⟩, ⟨300, "n1"⟩]⟩, none⟩).past = true ∧
    ascChain (getRadarTimestamps
      ⟨some ⟨some [⟨100, "p0"⟩, ⟨200, "p1"⟩],
             some [⟨100, "n0"⟩, ⟨300, "n1"⟩]⟩, none⟩).nowcast = true ∧
    seriesOrdered (getRadarSeries
      ⟨some ⟨some [⟨100, "p0"⟩, ⟨200, "p1"⟩],
             some [⟨100, "n0"⟩, ⟨300, "n1"⟩]⟩, none⟩).series = false := by
  decide

/-- C8 counterexample: the color value `9` lies outside the fixed 0–8
enumeration yet is used as given (the URL does not fall back to the default
scheme `1`), while the value `0` is a valid member of the enumeration yet is
replaced by the default — both contradicting the claimed validation. -/
theorem getRadarTileUrl_counterexample :
    JS.mapGet getColorSchemes 9 = none ∧
    getRadarTileUrl 1000 1 2 3 { color := some 9 } =
      "https://tilecache.rainviewer.com/v2/radar/1000/1/2/3/256/9_1.png" ∧
    getRadarTileUrl 1000 1 2 3 { color := some 9 } ≠
      getRadarTileUrl 1000 1 2 3 { color := some 1 } ∧
    JS.mapGet getColorSchemes 0 = some "Original" ∧
    getRadarTileUrl 1000 1 2 3 { color := some 0 } =
      getRadarTileUrl 1000 1 2 3 { color := some 1 } := by
  decide

/-- C8 (amended). `getRadarTileUrl` is pure string construction over the
fixed URL template; an absent or zero style option falls back to the
documented default (size 256, color scheme 1, smoothing 1), and any nonzero
option value — whether or not it lies in the fixed enumeration — is used as
given. -/
theorem getRadarTileUrl_options (ts z x y : Int)
    (size color smooth snow : Option Int) :
    (size = none ∨ size = some 0 →
      getRadarTileUrl ts z x y ⟨size, color, smooth, snow⟩ =
        radarTileUrlRaw ts z x y 256 (JS.orNum color 1) (JS.orNum smooth 1)) ∧
    (∀ s, size = some s → s ≠ 0 →
      getRadarTileUrl ts z x y ⟨size, color, smooth, snow⟩ =
        radarTileUrlRaw ts z x y s (JS.orNum color 1) (JS.orNum smooth 1)) ∧
    (color = none ∨ color = some 0 →
      getRadarTileUrl ts z x y ⟨size, color, smooth, snow⟩ =
        radarTileUrlRaw ts z x y (JS.orNum size 256) 1 (JS.orNum smooth 1)) ∧
    (∀ c, color = some c → c ≠ 0 →
      getRadarTileUrl ts z x y ⟨size, color, smooth, snow⟩ =
        radarTileUrlRaw ts z x y (JS.orNum size 256) c (JS.orNum smooth 1)) ∧
    (smooth = none ∨ smooth = some 0 →
      getRadarTileUrl ts z x y ⟨size, color, smooth, snow⟩ =
        radarTileUrlRaw ts z x y (JS.orNum size 256) (JS.orNum color 1) 1) ∧
    (∀ m, smooth = some m → m ≠ 0 →
      getRadarTileUrl ts z x y ⟨size, color, smooth, snow⟩ =
        radarTileUrlRaw ts z x y (JS.orNum size 256) (JS.orNum color 1) m) := by
  refine ⟨?_, ?_, ?_, ?_, ?_, ?_⟩
  · rintro (h | h) <;> simp [getRadarTileUrl, h, JS.orNum]
  · intro s h hs
    simp [getRadarTileUrl, h, JS.orNum, hs]
  · rintro (h | h) <;> simp [getRadarTileUrl, h, JS.orNum]
  · intro c h hc
    simp [getRadarTileUrl, h, JS.orNum, hc]
  · rintro (h | h) <;> simp [getRadarTileUrl, h, JS.orNum]
  · intro m h hm
    simp [getRadarTileUrl, h, JS.orNum, hm]

/-- C8 witness: a zero color falls back to scheme 1, and the out-of-range
color 9 is used as given. -/
theorem getRadarTileUrl_options_witness :
    getRadarTileUrl 1000 1 2 3 ⟨none, some 0, none, none⟩ =
      "https://tilecache.rainviewer.com/v2/radar/1000/1/2/3/256/1_1.png" ∧
    getRadarTileUrl 1000 1 2 3 ⟨none, some 9, none, none⟩ =
      "https://tilecache.rainviewer.com/v2/radar/1000/1/2/3/256/9_1.png" :=
  ⟨((getRadarTileUrl_options 1000 1 2 3 none (some 0) none none).2.2.1
      (Or.inr rfl)).trans (by decide),
   ((getRadarTileUrl_options 1000 1 2 3 none (some 9) none none).2.2.2.1 9
      rfl (by decide)).trans (by decide)⟩

/-- C3. In `getCompleteWeatherData` the conditions/forecast and air-quality
fetches are issued concurrently (`Promise.all` — the embedding takes both
outcomes as independent inputs): if the air-quality fetch fails while the
One Call fetch succeeds, the returned snapshot has `airQuality = null` and
every other field equals its value in the air-success snapshot; if the One
Call fetch fails, the whole call fails with that error. -/
theorem getCompleteWeatherData_asymmetric {ε : Type} (oc : OneCallData)
    (e : ε) :
    (∃ s : WeatherSnapshot,
      getCompleteWeatherData (Except.ok oc) (Except.error e) = Except.ok s ∧
      s.airQuality = none ∧
      ∀ a : AirResp,
        getCompleteWeatherData (Except.ok oc) (Except.ok a : Except ε AirResp) =
          Except.ok { s with airQuality := transformAirQuality (some a) }) ∧
    (∀ (err : ε) (air : Except ε AirResp),
      getCompleteWeatherData (Except.error err : Except ε OneCallData) air =
        Except.error err) :=
  ⟨⟨_, rfl, rfl, fun _ => rfl⟩, fun _ _ => rfl⟩

/-- C2. `getBatchWeatherData` returns a list of exactly the input's length,
index-aligned: the entry at a location's index is `null` exactly when that
location's snapshot fetch failed and the successful snapshot otherwise —
each position depending only on its own location's outcome. -/
theorem getBatchWeatherData_isolated {ε : Type}
    (fetchOneCall : Location → Except ε OneCallData)
    (fetchAir : Location → Except ε AirResp)
    (locations : List Location) (i : Nat) (loc : Location)
    (hloc : locations[i]? = some loc) :
    (getBatchWeatherData fetchOneCall fetchAir locations).length =
      locations.length ∧
    (∀ e : ε,
      getCompleteWeatherData (fetchOneCall loc) (fetchAir loc) =
        Except.error e →
      (getBatchWeatherData fetchOneCall fetchAir locations)[i]? =
        some none) ∧
    (∀ s : WeatherSnapshot,
      getCompleteWeatherData (fetchOneCall loc) (fetchAir loc) =
        Except.ok s →
      (getBatchWeatherData fetchOneCall fetchAir locations)[i]? =
        some (some s)) := by
  refine ⟨List.length_map _ _, ?_, ?_⟩
  · intro e he
    rw [getBatchWeatherData, List.getElem?_map, hloc]
    simp [he, Except.toOption]
  · intro s hs
    rw [getBatchWeatherData, List.getElem?_map, hloc]
    simp [hs, Except.toOption]

/-- A concrete One Call payload used to exercise the batch aggregator. -/
def sampleOneCall : OneCallData :=
  { current :=
      { dt := 1700000000
        sunrise := 1699960000
        sunset := 1700000000
        temp := 50
        feels_like := 48
        pressure := 1013
        humidity := 80
        dew_point := 44
        uvi := 5
        clouds := 75
        visibility := some 10000
        wind_speed := 10
        wind_deg := some 180
        wind_gust := none
        weather := [⟨500, "light rain", some "10d"⟩] }
    hourly := []
    daily := []
    alerts := none
    timezone := "America/New_York"
    lat := 40
    lon := -74 }

/-- C2 witness: a three-location batch whose middle location fails — the
output still has length 3 and carries `null` exactly at index 1. -/
theorem getBatchWeatherData_isolated_witness :
    (getBatchWeatherData
        (fun l => if l = ⟨1, 1⟩ then Except.error "boom"
                  else Except.ok sampleOneCall)
        (fun _ => Except.error "no air")
        [⟨0, 0⟩, ⟨1, 1⟩, ⟨2, 2⟩]).length = 3 ∧
    (getBatchWeatherData
        (fun l => if l = ⟨1, 1⟩ then Except.error "boom"
                  else Except.ok sampleOneCall)
        (fun _ => Except.error "no air")
        [⟨0, 0⟩, ⟨1, 1⟩, ⟨2, 2⟩])[1]? = some none :=
  ⟨((getBatchWeatherData_isolated
      (fun l => if l = ⟨1, 1⟩ then Except.error "boom"
                else Except.ok sampleOneCall)
      (fun _ => Except.error "no air")
      [⟨0, 0⟩, ⟨1, 1⟩, ⟨2, 2⟩] 1 ⟨1, 1⟩ (by decide)).1).trans rfl,
   (getBatchWeatherData_isolated
      (fun l => if l = ⟨1, 1⟩ then Except.error "boom"
                else Except.ok sampleOneCall)
      (fun _ => Except.error "no air")
      [⟨0, 0⟩, ⟨1, 1⟩, ⟨2, 2⟩] 1 ⟨1, 1⟩ (by decide)).2.1 "boom" rfl⟩
